import Mathlib

/-!
Shallow embedding of the `twitch_oauth2` user-token core
(`src/tokens/user_token.rs`): the `UserToken` aggregate with its expiry
model, the authorization-code-flow builder (`UserTokenBuilder`), the
implicit-flow builder (`ImplicitUserTokenBuilder`), and the refresh
protocol.

Modelling conventions:
- `std::time::Duration` is modelled as a nanosecond count (`Nat`);
  `Duration::checked_sub(..).unwrap_or_default()` is `Nat` truncated
  subtraction.
- `std::time::Instant` is an absolute nanosecond timestamp (`Nat`);
  `Instant::elapsed()` at wall-clock time `now` is `now - struct_created`.
- Secret wrapper types (`AccessToken`, `RefreshToken`, `ClientSecret`,
  `CsrfToken`) are opaque strings; their `secret()` / `as_str()`
  accessors are the identity, and `==` on them is string equality,
  exactly as in the source.
- Network calls (`Client::req`, token exchange, validation) are passed
  in as explicit oracle functions; each modelled operation additionally
  reports the list (or count) of HTTP requests it issued, so that
  "no network request is sent" claims are statable.
-/

namespace TwitchOAuth2

/-- Nanosecond count modelling `std::time::Duration`. -/
abbrev Duration := Nat

/-- Absolute nanosecond timestamp modelling `std::time::Instant`. -/
abbrev Instant := Nat

/-- Nanoseconds per second, for writing concrete durations. -/
def nsPerSec : Nat := 1000000000

/-- The maximal sentinel duration used by the source for never-expiring
tokens: `std::time::Duration::new(u64::MAX, 1_000_000_000 - 1)`. -/
def maxDuration : Duration := (2 ^ 64 - 1) * nsPerSec + (nsPerSec - 1)

/-- The `UserToken` aggregate (struct `UserToken` in the source).
`struct_created` records the `Instant::now()` taken at construction. -/
structure UserToken where
  access_token : String
  client_id : String
  client_secret : Option String
  login : String
  user_id : String
  refresh_token : Option String
  expires_in : Duration
  struct_created : Instant
  scopes : List String
  never_expiring : Bool
deriving Repr, DecidableEq

/-- Model of `UserToken::from_existing_unchecked`, called at wall-clock time `now`
(the source takes `struct_created := std::time::Instant::now()`).
If `expires_in` is `none` the stored lifetime is the maximal sentinel and
the token is marked never-expiring. -/
def fromExistingUnchecked (access_token : String) (refresh_token : Option String)
    (client_id : String) (client_secret : Option String)
    (login : String) (user_id : String)
    (scopes : Option (List String)) (expires_in : Option Duration)
    (now : Instant) : UserToken :=
  { access_token := access_token
    client_id := client_id
    client_secret := client_secret
    login := login
    user_id := user_id
    refresh_token := refresh_token
    expires_in := expires_in.getD maxDuration
    struct_created := now
    scopes := scopes.getD []
    never_expiring := expires_in.isNone }

/-- Model of `TwitchToken::expires_in` for `UserToken`, evaluated at wall-clock
time `now`: if the token is not never-expiring, the stored lifetime minus
`struct_created.elapsed()` with `checked_sub(..).unwrap_or_default()`
(truncated subtraction); otherwise the maximal sentinel. -/
def UserToken.expiresIn (t : UserToken) (now : Instant) : Duration :=
  if !t.never_expiring then
    t.expires_in - (now - t.struct_created)
  else
    maxDuration

/-- The refresh error enum `RefreshTokenError` (variants relevant to the
modelled code paths). -/
inductive RefreshTokenError where
  | NoRefreshToken
  | NoClientSecretFound
  | RequestError
  | DeserializeError
deriving Repr, DecidableEq

/-- Model of `TwitchToken::refresh_token` for `UserToken`. The network round trip
`RefreshToken::refresh_token(http_client, client_id, client_secret)` is
the `oracle` argument: it yields `(access_token, expires, refresh_token)`
or a failure. Returns the call result, the token's state after the call,
and the number of refresh requests issued.

Source shape: if a client secret is held, `self.refresh_token.take()` is
performed (leaving `None` in the field); if it held a token the request
is sent and `?` propagates any failure with the field already taken;
on success `access_token`, `expires_in` and `refresh_token` are replaced
(`struct_created` is left untouched). -/
def UserToken.refreshToken (t : UserToken)
    (oracle : Except RefreshTokenError (String × Duration × Option String)) :
    Except RefreshTokenError Unit × UserToken × Nat :=
  match t.client_secret with
  | some _ =>
    match t.refresh_token with
    | some _ =>
      match oracle with
      | .ok (access_token, expires, refresh_token) =>
        (.ok (), { t with access_token := access_token
                          expires_in := expires
                          refresh_token := refresh_token }, 1)
      | .error e => (.error e, { t with refresh_token := none }, 1)
    | none => (.error .NoRefreshToken, t, 0)
  | none => (.error .NoClientSecretFound, t, 0)

/-- A validation response (`ValidatedToken` in the source). -/
structure ValidatedToken where
  client_id : String
  login : Option String
  user_id : Option String
  scopes : Option (List String)
  expires_in : Option Duration
deriving Repr, DecidableEq

/-- A token-exchange response (`TwitchTokenResponse` in the source),
after deserialization. -/
structure TwitchTokenResponse where
  access_token : String
  refresh_token : Option String
  expires_in : Option Duration
  scopes : Option (List String)
deriving Repr, DecidableEq

/-- Validation errors (`ValidationError` variants relevant to the
modelled paths). -/
inductive ValidationError where
  | NoLogin
  | NotAuthorized
  | RequestError
deriving Repr, DecidableEq

/-- Model of `UserToken::new`: combine an exchange result with a validation
result; fails with `ValidationError::NoLogin` if the validation response
carries no login or no user id (the source maps both to `NoLogin`). -/
def UserToken.new (access_token : String) (refresh_token : Option String)
    (validated : ValidatedToken) (client_secret : Option String)
    (now : Instant) : Except ValidationError UserToken :=
  match validated.login with
  | none => .error .NoLogin
  | some login =>
    match validated.user_id with
    | none => .error .NoLogin
    | some uid =>
      .ok (fromExistingUnchecked access_token refresh_token validated.client_id
        client_secret login uid validated.scopes validated.expires_in now)

/-- Model of `UserToken::from_response`. -/
def UserToken.fromResponse (response : TwitchTokenResponse)
    (validated : ValidatedToken) (client_secret : Option String)
    (now : Instant) : Except ValidationError UserToken :=
  UserToken.new response.access_token response.refresh_token validated
    client_secret now

/-- The authorization-code-flow builder (`UserTokenBuilder`).
`csrf` is `some` of a freshly generated nonce at construction and may be
set to `none` via `set_csrf`. -/
structure UserTokenBuilder where
  scopes : List String
  csrf : Option String
  force_verify : Bool
  redirect_url : String
  client_id : String
  client_secret : String
deriving Repr, DecidableEq

/-- Model of `UserTokenBuilder::new`, with the randomly generated CSRF nonce
passed in explicitly (the source calls `CsrfToken::new_random()`). -/
def UserTokenBuilder.new (client_id client_secret redirect_url : String)
    (freshCsrf : String) : UserTokenBuilder :=
  { scopes := []
    csrf := some freshCsrf
    force_verify := false
    redirect_url := redirect_url
    client_id := client_id
    client_secret := client_secret }

/-- Model of `UserTokenBuilder::csrf_is_valid`: equality against the stored CSRF,
and `true` when no CSRF is stored. -/
def UserTokenBuilder.csrfIsValid (b : UserTokenBuilder) (csrf : String) : Bool :=
  match b.csrf with
  | some stored_csrf => stored_csrf == csrf
  | none => true

/-- The query-pair list that `UserTokenBuilder::generate_url` appends to
`AUTH_URL`, in order: `response_type`, `client_id`, `redirect_uri`, then
`state` if a CSRF is stored, then `scope` (space-joined) if the scope
list is non-empty, then `force_verify=true` if enabled. -/
def UserTokenBuilder.generateUrlQuery (b : UserTokenBuilder) :
    List (String × String) :=
  [("response_type", "code"), ("client_id", b.client_id),
    ("redirect_uri", b.redirect_url)]
  ++ (match b.csrf with
      | some csrf => [("state", csrf)]
      | none => [])
  ++ (if b.scopes.isEmpty then []
      else [("scope", String.intercalate " " b.scopes)])
  ++ (if b.force_verify then [("force_verify", "true")] else [])

/-- An uppercase hexadecimal digit. -/
def hexDigit (n : Nat) : Char :=
  if n < 10 then Char.ofNat (48 + n) else Char.ofNat (55 + n)

/-- Percent-encoding of one byte value, e.g. `58 ↦ "%3A"`. -/
def percentEncodeByte (n : Nat) : String :=
  String.mk ['%', hexDigit (n / 16), hexDigit (n % 16)]

/-- Form-urlencoding (`application/x-www-form-urlencoded`) of one ASCII character,
as performed by the `url` crate's query-pair serializer: alphanumerics
and `*-._` are kept, space becomes `+`, anything else is
percent-encoded. (The modelled inputs are ASCII; multi-byte characters
would be encoded byte-wise by the collaborator.) -/
def formUrlEncodeChar (c : Char) : String :=
  if ('0' ≤ c ∧ c ≤ '9') ∨ ('A' ≤ c ∧ c ≤ 'Z') ∨ ('a' ≤ c ∧ c ≤ 'z')
      ∨ c = '*' ∨ c = '-' ∨ c = '.' ∨ c = '_' then
    String.mk [c]
  else if c = ' ' then "+"
  else percentEncodeByte c.toNat

/-- Form-urlencoding of a string, character-wise. -/
def formUrlEncode (s : String) : String :=
  String.join (s.toList.map formUrlEncodeChar)

/-- Serialization of a query-pair list into the URL's query string. -/
def serializeQuery (ps : List (String × String)) : String :=
  String.intercalate "&"
    (ps.map (fun p => formUrlEncode p.1 ++ "=" ++ formUrlEncode p.2))

/-- The token-exchange request built by
`UserTokenBuilder::get_user_token_request` (POST to `TOKEN_URL` with
these form parameters). -/
structure HttpRequest where
  url : String
  params : List (String × String)
deriving Repr, DecidableEq

/-- Model of `UserTokenBuilder::get_user_token_request`. -/
def UserTokenBuilder.getUserTokenRequest (b : UserTokenBuilder)
    (code : String) : HttpRequest :=
  { url := "https://id.twitch.tv/oauth2/token"
    params := [("client_id", b.client_id), ("client_secret", b.client_secret),
      ("code", code), ("grant_type", "authorization_code"),
      ("redirect_uri", b.redirect_url)] }

/-- Code-flow exchange errors (`UserTokenExchangeError` variants). -/
inductive UserTokenExchangeError where
  | RequestError
  | StateMismatch
  | DeserializeError
  | ValidationFailed
deriving Repr, DecidableEq

/-- Model of `UserTokenBuilder::get_user_token`: validates CSRF first and
short-circuits with `StateMismatch`; otherwise sends the exchange
request (the `exchanger` oracle covers `http_client.req` plus response
deserialization), validates the received access token (the `validator`
oracle), and assembles the `UserToken` carrying the builder's client
secret. Returns the result together with the list of exchange requests
issued. -/
def UserTokenBuilder.getUserToken (b : UserTokenBuilder)
    (state : String) (code : String)
    (exchanger : HttpRequest → Except UserTokenExchangeError TwitchTokenResponse)
    (validator : String → Except ValidationError ValidatedToken)
    (now : Instant) :
    Except UserTokenExchangeError UserToken × List HttpRequest :=
  if !b.csrfIsValid state then
    (.error .StateMismatch, [])
  else
    let req := b.getUserTokenRequest code
    match exchanger req with
    | .error e => (.error e, [req])
    | .ok response =>
      match validator response.access_token with
      | .error _ => (.error .ValidationFailed, [req])
      | .ok validated =>
        match UserToken.fromResponse response validated (some b.client_secret) now with
        | .error _ => (.error .ValidationFailed, [req])
        | .ok t => (.ok t, [req])

/-- The implicit-flow builder (`ImplicitUserTokenBuilder`). `csrf` starts
absent and is generated only by `generate_url`. -/
structure ImplicitUserTokenBuilder where
  scopes : List String
  csrf : Option String
  redirect_url : String
  force_verify : Bool
  client_id : String
deriving Repr, DecidableEq

/-- Model of `ImplicitUserTokenBuilder::new`: CSRF starts absent. -/
def ImplicitUserTokenBuilder.new (client_id redirect_url : String) :
    ImplicitUserTokenBuilder :=
  { scopes := []
    redirect_url := redirect_url
    csrf := none
    force_verify := false
    client_id := client_id }

/-- Model of `ImplicitUserTokenBuilder::csrf_is_valid`: equality against the
stored CSRF, and `false` when none has been generated. -/
def ImplicitUserTokenBuilder.csrfIsValid (b : ImplicitUserTokenBuilder)
    (csrf : String) : Bool :=
  match b.csrf with
  | some csrf2 => csrf2 == csrf
  | none => false

/-- Implicit-flow exchange errors (`ImplicitUserTokenExchangeError`
variants). -/
inductive ImplicitUserTokenExchangeError where
  | StateMismatch
  | TwitchError (error : Option String) (description : Option String)
  | ValidationFailed
deriving Repr, DecidableEq

/-- Model of `ImplicitUserTokenBuilder::get_user_token`: the CSRF check comes
first, with an absent `state` treated as invalid
(`state.map(..).unwrap_or_default()` defaults to `false`); then the four
optional inputs are matched: a lone access token goes through
`UserToken::from_existing` (the `fromExisting` oracle), anything else is
a provider-reported `TwitchError`. -/
def ImplicitUserTokenBuilder.getUserToken (b : ImplicitUserTokenBuilder)
    (state : Option String) (access_token : Option String)
    (error : Option String) (error_description : Option String)
    (fromExisting : String → Except ValidationError UserToken) :
    Except ImplicitUserTokenExchangeError UserToken :=
  if !((state.map (fun s => b.csrfIsValid s)).getD false) then
    .error .StateMismatch
  else
    match access_token, error, error_description with
    | some access_token, none, none =>
      match fromExisting access_token with
      | .ok t => .ok t
      | .error _ => .error .ValidationFailed
    | _, error, description =>
      .error (.TwitchError error description)

/-- A concrete token holding both a client secret and a refresh token:
constructed at wall-clock time 0 with a 100-second lifetime. -/
def sampleToken : UserToken :=
  fromExistingUnchecked "AT1" (some "RT1") "ci" (some "sec") "u" "42"
    (some ["s1"]) (some (100 * nsPerSec)) 0

/-- State of `sampleToken` after a successful refresh whose response
carries access token "AT2", expires_in 50 seconds and refresh token
"RT2". -/
def sampleRefreshed : UserToken :=
  (sampleToken.refreshToken (.ok ("AT2", 50 * nsPerSec, some "RT2"))).2.1

/-- Casting a truncated `Nat` subtraction to `Int` yields the
zero-floored difference. -/
theorem intCastNatSub (a b : Nat) :
    ((a - b : Nat) : Int) = max ((a : Int) - (b : Int)) 0 := by
  omega

/-- C1: the claim says a successful refresh with response
`{access_token: "AT2", expires_in: 50}` yields a token whose access
token is "AT2" (true) and whose remaining lifetime is 50 seconds
measured from the refresh moment (false): `refresh_token` stores the new
lifetime but does not reset `struct_created`, so `expires_in()` keeps
subtracting the time elapsed since the token object's original creation.
For `sampleToken` (created at time 0, lifetime 100 s) refreshed with a
50-second response and queried at the refresh moment 10 s, the code
reports 40 s, not 50 s; queried at 200 s (refresh after expiry) it
reports 0 despite the fresh 50-second lifetime. -/
theorem C1_refresh_lifetime_counts_from_creation :
    sampleRefreshed.access_token = "AT2"
    ∧ sampleRefreshed.expiresIn (10 * nsPerSec) = 40 * nsPerSec
    ∧ 40 * nsPerSec ≠ 50 * nsPerSec
    ∧ sampleRefreshed.expiresIn (200 * nsPerSec) = 0
    ∧ sampleRefreshed.struct_created = sampleToken.struct_created := by
  refine ⟨rfl, by decide, by decide, by decide, rfl⟩

/-- C2: for a token that is not never-expiring, `expires_in()` evaluated
at time `n1` equals the stored lifetime minus the elapsed time since
`struct_created`, floored at zero, and is monotonically non-increasing
as the wall clock advances. -/
theorem C2_expires_in_floored_and_monotone (t : UserToken)
    (h : t.never_expiring = false) (n1 n2 : Instant) (hle : n1 ≤ n2) :
    ((t.expiresIn n1 : Int) =
      max ((t.expires_in : Int) - ((n1 - t.struct_created : Nat) : Int)) 0)
    ∧ t.expiresIn n2 ≤ t.expiresIn n1 := by
  simp only [UserToken.expiresIn, h, Bool.not_false, if_true]
  constructor
  · exact intCastNatSub t.expires_in (n1 - t.struct_created)
  · exact Nat.sub_le_sub_left (Nat.sub_le_sub_right hle _) _

/-- Witness for C2 at a concrete token created at time 7 with lifetime
100, evaluated at times 20 and 60. -/
theorem C2_expires_in_floored_and_monotone_witness :
    ((fromExistingUnchecked "AT" none "ci" none "l" "42" none (some 100) 7).never_expiring = false)
    ∧ (((fromExistingUnchecked "AT" none "ci" none "l" "42" none (some 100) 7).expiresIn 20 : Int) =
        max (((fromExistingUnchecked "AT" none "ci" none "l" "42" none (some 100) 7).expires_in : Int) -
          ((20 - (fromExistingUnchecked "AT" none "ci" none "l" "42" none (some 100) 7).struct_created : Nat) : Int)) 0)
    ∧ ((fromExistingUnchecked "AT" none "ci" none "l" "42" none (some 100) 7).expiresIn 60 ≤
        (fromExistingUnchecked "AT" none "ci" none "l" "42" none (some 100) 7).expiresIn 20) :=
  ⟨rfl,
    (C2_expires_in_floored_and_monotone _ rfl 20 60 (by decide)).1,
    (C2_expires_in_floored_and_monotone _ rfl 20 60 (by decide)).2⟩

/-- C3: `from_existing_unchecked` with `expires_in = None` marks the
token never-expiring, and every never-expiring token reports the fixed
maximal sentinel as its remaining lifetime at every instant. -/
theorem C3_never_expiring_sentinel :
    (∀ a rt ci cs l u sc now,
      (fromExistingUnchecked a rt ci cs l u sc none now).never_expiring = true)
    ∧ (∀ t : UserToken, t.never_expiring = true →
        ∀ now, t.expiresIn now = maxDuration) := by
  constructor
  · intro a rt ci cs l u sc now; rfl
  · intro t h now; simp [UserToken.expiresIn, h]

/-- Witness for C3 at a concrete token constructed at time 5 with no
lifetime, queried at time 123456. -/
theorem C3_never_expiring_sentinel_witness :
    (fromExistingUnchecked "AT" none "ci" none "l" "42" none none 5).never_expiring = true
    ∧ (fromExistingUnchecked "AT" none "ci" none "l" "42" none none 5).expiresIn 123456 = maxDuration :=
  ⟨C3_never_expiring_sentinel.1 "AT" none "ci" none "l" "42" none 5,
    C3_never_expiring_sentinel.2 _
      (C3_never_expiring_sentinel.1 "AT" none "ci" none "l" "42" none 5) 123456⟩

/-- C4: the code-flow builder's `csrf_is_valid(x)` is true exactly when
the stored CSRF is absent (fail-open) or `x` equals the stored secret. -/
theorem C4_code_flow_csrf_fail_open (b : UserTokenBuilder) (x : String) :
    b.csrfIsValid x = true ↔ (b.csrf = none ∨ b.csrf = some x) := by
  unfold UserTokenBuilder.csrfIsValid
  cases h : b.csrf with
  | none => simp
  | some s => simp

/-- C5: the implicit-flow builder's `csrf_is_valid(x)` is false whenever
no CSRF has been generated, and otherwise true exactly when `x` equals
the stored value; and `get_user_token` with an absent `state` argument
fails with `StateMismatch` (fail-closed). -/
theorem C5_implicit_csrf_fail_closed (b : ImplicitUserTokenBuilder) (x : String) :
    (b.csrf = none → b.csrfIsValid x = false)
    ∧ (∀ c, b.csrf = some c → (b.csrfIsValid x = true ↔ x = c))
    ∧ (∀ access_token error description fe,
        b.getUserToken none access_token error description fe =
          .error .StateMismatch) := by
  refine ⟨?_, ?_, ?_⟩
  · intro h; simp [ImplicitUserTokenBuilder.csrfIsValid, h]
  · intro c h
    simp only [ImplicitUserTokenBuilder.csrfIsValid, h, beq_iff_eq]
    exact eq_comm
  · intro a er ed fe; rfl

/-- Witness for C5: a freshly built implicit builder rejects "Z"; with
stored CSRF "Z" it accepts "Z"; and an absent state fails with
`StateMismatch`. -/
theorem C5_implicit_csrf_fail_closed_witness :
    ((ImplicitUserTokenBuilder.new "cid" "ru").csrfIsValid "Z" = false)
    ∧ ({ ImplicitUserTokenBuilder.new "cid" "ru" with csrf := some "Z" }.csrfIsValid "Z" = true)
    ∧ ({ ImplicitUserTokenBuilder.new "cid" "ru" with csrf := some "Z" }.getUserToken
        none (some "AT") none none (fun _ => .error .NoLogin) = .error .StateMismatch) :=
  ⟨(C5_implicit_csrf_fail_closed (ImplicitUserTokenBuilder.new "cid" "ru") "Z").1 rfl,
    ((C5_implicit_csrf_fail_closed
      { ImplicitUserTokenBuilder.new "cid" "ru" with csrf := some "Z" } "Z").2.1 "Z" rfl).mpr rfl,
    (C5_implicit_csrf_fail_closed
      { ImplicitUserTokenBuilder.new "cid" "ru" with csrf := some "Z" } "Z").2.2
      (some "AT") none none (fun _ => .error .NoLogin)⟩

/-- C6: when the code-flow CSRF check rejects the supplied state, the
exchange returns `StateMismatch` and issues no HTTP request, whatever
the exchanger and validator oracles would do. -/
theorem C6_state_mismatch_short_circuits (b : UserTokenBuilder)
    (state code : String) (h : b.csrfIsValid state = false)
    (exchanger : HttpRequest → Except UserTokenExchangeError TwitchTokenResponse)
    (validator : String → Except ValidationError ValidatedToken)
    (now : Instant) :
    b.getUserToken state code exchanger validator now =
      (.error .StateMismatch, ([] : List HttpRequest)) := by
  simp [UserTokenBuilder.getUserToken, h]

/-- Witness for C6: a builder whose stored CSRF is "A" rejects state "B"
with `StateMismatch` and an empty request list. -/
theorem C6_state_mismatch_short_circuits_witness :
    (UserTokenBuilder.new "ci" "cs" "ru" "A").getUserToken "B" "code"
      (fun _ => .error .RequestError) (fun _ => .error .NoLogin) 0 =
      (.error .StateMismatch, ([] : List HttpRequest)) :=
  C6_state_mismatch_short_circuits (UserTokenBuilder.new "ci" "cs" "ru" "A") "B" "code"
    (by decide) (fun _ => .error .RequestError) (fun _ => .error .NoLogin) 0

/-- C7: refresh fails with `NoClientSecretFound` whenever no client
secret is held (whatever the refresh-token field holds), and with
`NoRefreshToken` when a secret is held but no refresh token; in both
cases the token is unchanged and zero refresh requests are issued. -/
theorem C7_refresh_precondition_errors (t : UserToken)
    (oracle : Except RefreshTokenError (String × Duration × Option String)) :
    (t.client_secret = none →
      t.refreshToken oracle = (.error .NoClientSecretFound, t, 0))
    ∧ (∀ cs, t.client_secret = some cs → t.refresh_token = none →
      t.refreshToken oracle = (.error .NoRefreshToken, t, 0)) := by
  constructor
  · intro h; simp [UserToken.refreshToken, h]
  · intro cs h1 h2; simp [UserToken.refreshToken, h1, h2]

/-- Witness for C7: a token without a secret (but with a refresh token)
fails with `NoClientSecretFound`; one with a secret but no refresh token
fails with `NoRefreshToken`; both issue zero requests. -/
theorem C7_refresh_precondition_errors_witness :
    ((fromExistingUnchecked "AT" (some "RT") "ci" none "l" "42" none (some 5) 0).refreshToken
        (.ok ("A", 1, none)) =
      (.error .NoClientSecretFound,
        fromExistingUnchecked "AT" (some "RT") "ci" none "l" "42" none (some 5) 0, 0))
    ∧ ((fromExistingUnchecked "AT" none "ci" (some "sec") "l" "42" none (some 5) 0).refreshToken
        (.ok ("A", 1, none)) =
      (.error .NoRefreshToken,
        fromExistingUnchecked "AT" none "ci" (some "sec") "l" "42" none (some 5) 0, 0)) :=
  ⟨(C7_refresh_precondition_errors _ _).1 rfl,
    (C7_refresh_precondition_errors _ _).2 "sec" rfl rfl⟩

/-- C8: a successful refresh leaves `login`, `user_id`, `scopes`,
`client_id`, `client_secret` (and `struct_created`) exactly as before,
and replaces only the access token, the stored lifetime and the refresh
token with the response values. -/
theorem C8_refresh_preserves_identity (t t2 : UserToken)
    (oracle : Except RefreshTokenError (String × Duration × Option String))
    (n : Nat) (h : t.refreshToken oracle = (.ok (), t2, n)) :
    t2.login = t.login ∧ t2.user_id = t.user_id ∧ t2.scopes = t.scopes
    ∧ t2.client_id = t.client_id ∧ t2.client_secret = t.client_secret
    ∧ t2.struct_created = t.struct_created
    ∧ (∀ a e rt, oracle = .ok (a, e, rt) →
        t2.access_token = a ∧ t2.expires_in = e ∧ t2.refresh_token = rt) := by
  cases hcs : t.client_secret with
  | none => simp [UserToken.refreshToken, hcs] at h
  | some cs =>
    cases hrt : t.refresh_token with
    | none => simp [UserToken.refreshToken, hcs, hrt] at h
    | some rt0 =>
      cases oracle with
      | error e => simp [UserToken.refreshToken, hcs, hrt] at h
      | ok v =>
        obtain ⟨a, e, rt⟩ := v
        simp only [UserToken.refreshToken, hcs, hrt, Prod.mk.injEq] at h
        obtain ⟨-, h2, h3⟩ := h
        subst h2
        refine ⟨rfl, rfl, rfl, rfl, rfl, rfl, ?_⟩
        intro a2 e2 rt2 he
        injection he with he2
        simp only [Prod.mk.injEq] at he2
        obtain ⟨rfl, rfl, rfl⟩ := he2
        exact ⟨rfl, rfl, rfl⟩

/-- Witness for C8: refreshing `sampleToken` with the "AT2"/50 s/"RT2"
response preserves identity fields and replaces exactly the three
replaced fields. -/
theorem C8_refresh_preserves_identity_witness :
    sampleRefreshed.login = sampleToken.login
    ∧ sampleRefreshed.user_id = sampleToken.user_id
    ∧ sampleRefreshed.scopes = sampleToken.scopes
    ∧ sampleRefreshed.client_id = sampleToken.client_id
    ∧ sampleRefreshed.client_secret = sampleToken.client_secret
    ∧ sampleRefreshed.struct_created = sampleToken.struct_created
    ∧ sampleRefreshed.access_token = "AT2"
    ∧ sampleRefreshed.expires_in = 50 * nsPerSec
    ∧ sampleRefreshed.refresh_token = some "RT2" := by
  have h := C8_refresh_preserves_identity sampleToken sampleRefreshed
    (.ok ("AT2", 50 * nsPerSec, some "RT2")) 1 rfl
  have h2 := h.2.2.2.2.2.2 "AT2" (50 * nsPerSec) (some "RT2") rfl
  exact ⟨h.1, h.2.1, h.2.2.1, h.2.2.2.1, h.2.2.2.2.1, h.2.2.2.2.2.1,
    h2.1, h2.2.1, h2.2.2⟩

/-- C9: for the code-flow builder with scopes `["read:x", "write:y"]`,
`force_verify = true`, redirect `"https://app.example/cb"` and stored
CSRF `cs`, the generated query holds `scope` equal to the space-joined
scopes, `force_verify=true`, and `state` equal to `cs`; for every
builder, `scope` is absent when the scope list is empty and
`force_verify` is absent when the flag is false; and the form-urlencoded
rendering of the joined scopes is `"read%3Ax+write%3Ay"`. -/
theorem C9_generate_url_query (cs : String) :
    ((("scope", "read:x write:y") ∈
        (UserTokenBuilder.mk ["read:x", "write:y"] (some cs) true
          "https://app.example/cb" "cid" "sec").generateUrlQuery)
      ∧ (("force_verify", "true") ∈
        (UserTokenBuilder.mk ["read:x", "write:y"] (some cs) true
          "https://app.example/cb" "cid" "sec").generateUrlQuery)
      ∧ (("state", cs) ∈
        (UserTokenBuilder.mk ["read:x", "write:y"] (some cs) true
          "https://app.example/cb" "cid" "sec").generateUrlQuery))
    ∧ (∀ b : UserTokenBuilder,
        (b.scopes = [] → ∀ v, ("scope", v) ∉ b.generateUrlQuery)
        ∧ (b.force_verify = false → ∀ v, ("force_verify", v) ∉ b.generateUrlQuery))
    ∧ formUrlEncode "read:x write:y" = "read%3Ax+write%3Ay"
    ∧ serializeQuery [("scope", "read:x write:y")] = "scope=read%3Ax+write%3Ay" := by
  refine ⟨⟨?_, ?_, ?_⟩, ?_, by decide, by decide⟩
  · simp only [UserTokenBuilder.generateUrlQuery]
    simp
    decide
  · simp [UserTokenBuilder.generateUrlQuery]
  · simp [UserTokenBuilder.generateUrlQuery]
  · intro b
    constructor
    · intro hs v
      cases hcsrf : b.csrf <;> cases hfv : b.force_verify <;>
        simp [UserTokenBuilder.generateUrlQuery, hs, hcsrf, hfv]
    · intro hfv v
      cases hcsrf : b.csrf <;> rcases hs : b.scopes with _ | ⟨s0, srest⟩ <;>
        simp [UserTokenBuilder.generateUrlQuery, hs, hcsrf, hfv]

/-- Witness for C9 at CSRF "XYZ", with the omission clauses instantiated
at a fresh builder (empty scopes, `force_verify` off). -/
theorem C9_generate_url_query_witness :
    (("state", "XYZ") ∈
      (UserTokenBuilder.mk ["read:x", "write:y"] (some "XYZ") true
        "https://app.example/cb" "cid" "sec").generateUrlQuery)
    ∧ (("scope", "s") ∉ (UserTokenBuilder.new "ci" "cs" "ru" "A").generateUrlQuery)
    ∧ (("force_verify", "true") ∉ (UserTokenBuilder.new "ci" "cs" "ru" "A").generateUrlQuery) :=
  ⟨(C9_generate_url_query "XYZ").1.2.2,
    ((C9_generate_url_query "XYZ").2.1 (UserTokenBuilder.new "ci" "cs" "ru" "A")).1 rfl "s",
    ((C9_generate_url_query "XYZ").2.1 (UserTokenBuilder.new "ci" "cs" "ru" "A")).2 rfl "true"⟩

/-- C10: a refresh that passes the precondition checks but whose network
call fails leaves the token with `refresh_token = None` (the held
refresh token was consumed by `take()`), while the access token and the
stored lifetime keep their prior values. -/
theorem C10_failed_refresh_consumes_refresh_token (t : UserToken)
    (e : RefreshTokenError) (cs rt : String)
    (hcs : t.client_secret = some cs) (hrt : t.refresh_token = some rt) :
    t.refreshToken (.error e) =
      (.error e, { t with refresh_token := none }, 1) := by
  simp [UserToken.refreshToken, hcs, hrt]

/-- Witness for C10: refreshing `sampleToken` against a transport error
loses the stored refresh token "RT1" while leaving the other fields in
place. -/
theorem C10_failed_refresh_consumes_refresh_token_witness :
    sampleToken.refreshToken (.error .RequestError) =
      (.error .RequestError, { sampleToken with refresh_token := none }, 1) :=
  C10_failed_refresh_consumes_refresh_token sampleToken .RequestError "sec" "RT1" rfl rfl

end TwitchOAuth2
